import Mathlib

/-!
# PetRescue — verification of the core behaviours of `src/app.py`

A shallow embedding of the PetRescue Flask application (`src/app.py`).

The SQLite database is modelled as lists of rows (one list per table), the
Flask session as a record of three independent optional ids, and each route
handler as a pure function from the database, the session and the submitted
form fields to an outcome plus the updated database/session.  External
collaborators (werkzeug's `generate_password_hash` / `check_password_hash`,
`secure_filename`) are passed in as function parameters or as an
already-sanitized string; `datetime('now')` is an explicit `now : String`
argument.  SQLite's UNIQUE constraints (`users.email`, `shelters.email`,
`admins.username`) are modelled at the insert site: an insert that collides
raises `sqlite3.IntegrityError`, and since `conn.commit()` is only reached
after all statements succeed, a raised insert leaves the database unchanged.
`AUTOINCREMENT` ids are modelled as `max id + 1`, and row creation order
follows id order, so "most recently created" coincides with "largest id".
The REAL `amount` column of `donations` is carried opaquely as the raw
submitted string: no claim involves arithmetic on it.
-/

namespace PetRescue

/-- Row of the `users` table (app.py `init_db`, CREATE TABLE users). -/
structure UserRow where
  id : Nat
  first_name : String
  last_name : String
  email : String
  phone : String
  password_hash : String
deriving Repr, DecidableEq

/-- Row of the `admins` table (app.py `init_db`, CREATE TABLE admins). -/
structure AdminRow where
  id : Nat
  username : String
  password_hash : String
  full_name : String
  email : String
  phone : String
  must_reset_password : Nat
deriving Repr, DecidableEq

/-- Row of the `shelters` table (app.py `init_db`, CREATE TABLE shelters). -/
structure ShelterRow where
  id : Nat
  name : String
  email : String
  phone : String
  address : String
  description : String
  website : String
  photo_filename : String
  password_hash : String
  shelter_type : String
  urgent_level : Int
  pickup_service : Nat
  created_at : String
deriving Repr, DecidableEq

/-- Row of the `shelter_requests` table (app.py `init_db`). `reviewed_at`
is nullable, hence an `Option`. -/
structure ShelterRequestRow where
  id : Nat
  name : String
  email : String
  phone : String
  address : String
  description : String
  website : String
  photo_filename : String
  password_hash : String
  shelter_type : String
  pickup_service : Nat
  status : String
  submitted_at : String
  reviewed_at : Option String
deriving Repr, DecidableEq

/-- Row of the `donations` table (app.py `init_db`).  The REAL `amount`
column is carried opaquely as the submitted string; no verified claim
performs arithmetic on it. -/
structure DonationRow where
  id : Nat
  user_id : Nat
  category : String
  shelter_id : Nat
  amount : String
  details : String
  message : String
  created_at : String
deriving Repr, DecidableEq

/-- The SQLite database, one list of rows per table relevant to the claims. -/
structure Db where
  users : List UserRow
  admins : List AdminRow
  shelters : List ShelterRow
  shelter_requests : List ShelterRequestRow
  donations : List DonationRow
deriving Repr, DecidableEq

/-- The Flask session: up to three independent identities may be bound
(`session["user_id"]`, `session["admin_id"]`, `session["shelter_id"]`). -/
structure Session where
  user_id : Option Nat
  admin_id : Option Nat
  shelter_id : Option Nat
deriving Repr, DecidableEq

/-- ASCII lowering of one character, as Python's `str.lower` acts on the
ASCII range (the only range exercised by the claims). -/
def lowerChar (c : Char) : Char :=
  if 65 ≤ c.toNat ∧ c.toNat ≤ 90 then Char.ofNat (c.toNat + 32) else c

/-- Python's `str.lower`, character-wise over the string's data. -/
def strLower (s : String) : String :=
  String.mk (s.data.map lowerChar)

/-- The whitespace characters removed by Python's `str.strip()`. -/
def pySpace (c : Char) : Bool :=
  c = ' ' ∨ c = '\t' ∨ c = '\n' ∨ c = '\r' ∨ c = '\x0b' ∨ c = '\x0c'

/-- Python's `str.strip()`: drops leading and trailing whitespace. -/
def strStrip (s : String) : String :=
  String.mk (((s.data.dropWhile pySpace).reverse.dropWhile pySpace).reverse)

/-- `AUTOINCREMENT` id for a fresh `users` row. -/
def nextUserId (db : Db) : Nat :=
  db.users.foldl (fun m u => max m u.id) 0 + 1

/-- `AUTOINCREMENT` id for a fresh `shelters` row. -/
def nextShelterId (db : Db) : Nat :=
  db.shelters.foldl (fun m s => max m s.id) 0 + 1

/-- `AUTOINCREMENT` id for a fresh `donations` row. -/
def nextDonationId (db : Db) : Nat :=
  db.donations.foldl (fun m d => max m d.id) 0 + 1

/-- `SELECT * FROM users WHERE id = ?` followed by `fetchone()`. -/
def findUserById (db : Db) (uid : Nat) : Option UserRow :=
  db.users.find? (fun u => u.id == uid)

/-- `SELECT * FROM admins WHERE username = ?` followed by `fetchone()`. -/
def findAdminByUsername (db : Db) (username : String) : Option AdminRow :=
  db.admins.find? (fun a => a.username == username)

/-- `SELECT * FROM shelters WHERE email = ?` followed by `fetchone()`. -/
def findShelterByEmail (db : Db) (email : String) : Option ShelterRow :=
  db.shelters.find? (fun s => s.email == email)

/-- `SELECT * FROM shelter_requests WHERE id = ?` followed by `fetchone()`. -/
def findRequestById (db : Db) (rid : Nat) : Option ShelterRequestRow :=
  db.shelter_requests.find? (fun r => r.id == rid)

/-- app.py `current_user`: resolves `session["user_id"]` to a row, or `none`
(silently) when the session is unbound or the row no longer exists. -/
def current_user (sess : Session) (db : Db) : Option UserRow :=
  match sess.user_id with
  | none => none
  | some uid => findUserById db uid

/-- The possible redirect issued by the admin guard. -/
inductive Guard
  | redirectAdminLogin
deriving Repr, DecidableEq

/-- app.py `require_admin` (lines 250-253): redirects to the admin login
page when no admin id is bound in the session; it inspects nothing else —
in particular not `must_reset_password`. -/
def require_admin (sess : Session) : Option Guard :=
  if sess.admin_id = none then some Guard.redirectAdminLogin else none

/-- Outcome of a POST to `/register/utilizator`. -/
inductive RegisterOutcome
  | validationError
  | duplicateError
  | created
deriving Repr, DecidableEq

/-- app.py `register_user` (lines 578-613), POST branch.  Form fields are
normalised exactly as in the source (`.strip()`, and `.strip().lower()` for
the email).  The `INSERT INTO users` is attempted without any pre-check; a
collision with the UNIQUE constraint on `users.email` raises
`sqlite3.IntegrityError`, which the handler catches and reports as the
duplicate-account message with no row added.  `gph` stands for werkzeug's
`generate_password_hash`, an external collaborator. -/
def register_user (gph : String → String) (db : Db)
    (first_name last_name email phone password password2 : String) :
    RegisterOutcome × Db :=
  let first_name := strStrip first_name
  let last_name := strStrip last_name
  let email := strLower (strStrip email)
  let phone := strStrip phone
  if email = "" ∨ password = "" then
    (RegisterOutcome.validationError, db)
  else if password ≠ password2 then
    (RegisterOutcome.validationError, db)
  else if db.users.any (fun u => u.email == email) then
    (RegisterOutcome.duplicateError, db)
  else
    (RegisterOutcome.created,
     { db with users := db.users ++
        [{ id := nextUserId db, first_name := first_name, last_name := last_name,
           email := email, phone := phone, password_hash := gph password }] })

/-- Outcome of a POST to `/login/adapost`. -/
inductive ShelterLoginOutcome
  | validationError
  | invalidCredential
  | redirectShelterDashboard
deriving Repr, DecidableEq

/-- app.py `login_adapost` (lines 381-405), POST branch.  A login is refused
with the generic invalid message when no shelter has the submitted email,
when the stored `password_hash` is empty (falsy), or when the password-hash
check fails; only then is `session["shelter_id"]` bound.  `chk` stands for
werkzeug's `check_password_hash`, an external collaborator. -/
def login_adapost (chk : String → String → Bool) (db : Db) (sess : Session)
    (email password : String) : ShelterLoginOutcome × Session :=
  let email := strLower (strStrip email)
  if email = "" ∨ password = "" then
    (ShelterLoginOutcome.validationError, sess)
  else
    match findShelterByEmail db email with
    | none => (ShelterLoginOutcome.invalidCredential, sess)
    | some sh =>
        if sh.password_hash = "" then
          (ShelterLoginOutcome.invalidCredential, sess)
        else if ¬ chk sh.password_hash password then
          (ShelterLoginOutcome.invalidCredential, sess)
        else
          (ShelterLoginOutcome.redirectShelterDashboard,
           { sess with shelter_id := some sh.id })

/-- Outcome of a POST to `/admin/`. -/
inductive AdminLoginOutcome
  | invalidCredential
  | redirectResetPassword
  | redirectDashboard
deriving Repr, DecidableEq

/-- app.py `admin_login` (lines 760-783), POST branch.  On success the admin
id is bound in the session; if the row's `must_reset_password` equals 1 the
response redirects to the reset flow, otherwise to the dashboard. -/
def admin_login (chk : String → String → Bool) (db : Db) (sess : Session)
    (username password : String) : AdminLoginOutcome × Session :=
  let username := strStrip username
  match findAdminByUsername db username with
  | none => (AdminLoginOutcome.invalidCredential, sess)
  | some admin =>
      if ¬ chk admin.password_hash password then
        (AdminLoginOutcome.invalidCredential, sess)
      else
        let sess := { sess with admin_id := some admin.id }
        if admin.must_reset_password = 1 then
          (AdminLoginOutcome.redirectResetPassword, sess)
        else
          (AdminLoginOutcome.redirectDashboard, sess)

/-- Outcome of a GET to an admin page guarded only by `require_admin`. -/
inductive AdminPageOutcome
  | redirectAdminLogin
  | renders
deriving Repr, DecidableEq

/-- app.py `admin_dashboard` (lines 827-853): after `require_admin` passes,
the dashboard renders; there is no further check (in particular none on
`must_reset_password`). -/
def admin_dashboard (db : Db) (sess : Session) : AdminPageOutcome :=
  match require_admin sess with
  | some _ => AdminPageOutcome.redirectAdminLogin
  | none =>
      let _ := db
      AdminPageOutcome.renders

/-- Outcome of a POST to `/admin/reset-password`. -/
inductive ResetOutcome
  | redirectAdminLogin
  | passwordMismatch
  | redirectDashboard
deriving Repr, DecidableEq

/-- app.py `admin_reset_password_save` (lines 801-824): with an admin session
bound and matching password fields, stores a fresh hash and clears
`must_reset_password` for the session's admin row (`UPDATE ... WHERE id=?`). -/
def admin_reset_password_save (gph : String → String) (db : Db) (sess : Session)
    (password password2 : String) : ResetOutcome × Db :=
  match sess.admin_id with
  | none => (ResetOutcome.redirectAdminLogin, db)
  | some aid =>
      if password ≠ password2 then
        (ResetOutcome.passwordMismatch, db)
      else
        (ResetOutcome.redirectDashboard,
         { db with admins := db.admins.map (fun a =>
             if a.id = aid then
               { a with password_hash := gph password, must_reset_password := 0 }
             else a) })

/-- `ORDER BY urgent_level DESC, id DESC`: row `a` sorts no later than row
`b`.  Row creation follows id order (`AUTOINCREMENT`), so `id DESC` is
"most recently created first". -/
def shelterBefore (a b : ShelterRow) : Bool :=
  decide (b.urgent_level < a.urgent_level ∨
          (a.urgent_level = b.urgent_level ∧ b.id ≤ a.id))

/-- Insertion step of the `ORDER BY` sort. -/
def insertShelter (a : ShelterRow) : List ShelterRow → List ShelterRow
  | [] => [a]
  | b :: bs =>
      if shelterBefore a b then a :: b :: bs else b :: insertShelter a bs

/-- `SELECT * FROM shelters ORDER BY urgent_level DESC, id DESC`
(app.py line 721), modelled as an insertion sort by `shelterBefore`. -/
def sortShelters : List ShelterRow → List ShelterRow
  | [] => []
  | a :: as_ => insertShelter a (sortShelters as_)

/-- Outcome of a POST to `/ajuta/<category>`. -/
inductive AjutaOutcome
  | notFound
  | redirectLoginUtilizator
  | submitted (shelter_id : Nat)
deriving Repr, DecidableEq

/-- app.py `ajuta_category` (lines 709-748), POST branch.  The category must
be one of the fixed three or the route aborts 404; an authenticated member
is required.  The target shelter id is the first submitted id when
`mode == "manual"` and at least one id was chosen, otherwise the head of the
urgency-ordered shelter list — or the literal `0` when no shelters exist.
A `donations` row is then inserted unconditionally.  `request.form.get("mode")
or "auto"` is modelled by treating the empty string as absent. -/
def ajuta_category (db : Db) (sess : Session) (category : String)
    (mode amount details message : String) (chosen_ids : List Nat)
    (now : String) : AjutaOutcome × Db :=
  if ¬ (category = "materials" ∨ category = "money" ∨ category = "volunteer") then
    (AjutaOutcome.notFound, db)
  else
    match current_user sess db with
    | none => (AjutaOutcome.redirectLoginUtilizator, db)
    | some u =>
        let shelters := sortShelters db.shelters
        let mode := if mode = "" then "auto" else mode
        let details := strStrip details
        let message := strStrip message
        let shelter_id :=
          if mode = "manual" ∧ chosen_ids ≠ [] then
            chosen_ids.headD 0
          else
            match shelters.head? with
            | some s => s.id
            | none => 0
        (AjutaOutcome.submitted shelter_id,
         { db with donations := db.donations ++
            [{ id := nextDonationId db, user_id := u.id, category := category,
               shelter_id := shelter_id, amount := amount, details := details,
               message := message, created_at := now }] })

/-- Outcome of a POST to `/admin/shelter-requests/<id>/approve`. -/
inductive ApproveOutcome
  | redirectAdminLogin
  | notFound
  | integrityError
  | approved
deriving Repr, DecidableEq

/-- The `INSERT INTO shelters` of the approve handler (app.py lines
976-984): every onboarding field of the request is copied verbatim —
including the already-hashed credential, which is never re-hashed (the
handler takes no hashing function at all).  `urgent_level` and `created_at`
take their schema defaults. -/
def promoteRequest (r : ShelterRequestRow) (newId : Nat) (now : String) : ShelterRow :=
  { id := newId, name := r.name, email := r.email, phone := r.phone,
    address := r.address, description := r.description, website := r.website,
    photo_filename := r.photo_filename, password_hash := r.password_hash,
    shelter_type := r.shelter_type, urgent_level := 0,
    pickup_service := r.pickup_service, created_at := now }

/-- app.py `admin_shelter_request_approve` (lines 961-991).  The request is
loaded (404 when absent) and then — with no check of its `status` — a new
`shelters` row is inserted from it and the request is updated to APPROVED.
The `shelters.email` UNIQUE constraint makes the insert raise an uncaught
`sqlite3.IntegrityError` when a shelter with the request's email already
exists; `conn.commit()` is then never reached, so the open transaction is
rolled back and the database is unchanged. -/
def admin_shelter_request_approve (db : Db) (sess : Session) (req_id : Nat)
    (now : String) : ApproveOutcome × Db :=
  match require_admin sess with
  | some _ => (ApproveOutcome.redirectAdminLogin, db)
  | none =>
      match findRequestById db req_id with
      | none => (ApproveOutcome.notFound, db)
      | some r =>
          if db.shelters.any (fun s => s.email == r.email) then
            (ApproveOutcome.integrityError, db)
          else
            (ApproveOutcome.approved,
             { db with
               shelters := db.shelters ++ [promoteRequest r (nextShelterId db) now],
               shelter_requests := db.shelter_requests.map (fun q =>
                 if q.id = req_id then
                   { q with status := "APPROVED", reviewed_at := some now }
                 else q) })

/-- Outcome of a POST to `/admin/shelter-requests/<id>/reject`. -/
inductive RejectOutcome
  | redirectAdminLogin
  | rejectedFlash
deriving Repr, DecidableEq

/-- app.py `admin_shelter_request_reject` (lines 994-1007).  A single
unconditional `UPDATE shelter_requests SET status='REJECTED',
reviewed_at=datetime('now') WHERE id=?`: no existence lookup, no status
check; the handler always flashes success and redirects. -/
def admin_shelter_request_reject (db : Db) (sess : Session) (req_id : Nat)
    (now : String) : RejectOutcome × Db :=
  match require_admin sess with
  | some _ => (RejectOutcome.redirectAdminLogin, db)
  | none =>
      (RejectOutcome.rejectedFlash,
       { db with shelter_requests := db.shelter_requests.map (fun q =>
           if q.id = req_id then
             { q with status := "REJECTED", reviewed_at := some now }
           else q) })

/-- app.py `ALLOWED_EXTENSIONS` (line 23). -/
def ALLOWED_EXTENSIONS : List String := ["png", "jpg", "jpeg", "webp"]

/-- Split a character list at the LAST occurrence of `c`: returns the parts
before and after it, or `none` when `c` does not occur.  This is the common
core of Python's `rsplit(".", 1)` and `os.path.splitext`. -/
def splitLast (c : Char) : List Char → Option (List Char × List Char)
  | [] => none
  | x :: xs =>
      match splitLast c xs with
      | some (b, a) => some (x :: b, a)
      | none => if x = c then some ([], xs) else none

/-- app.py `allowed_file` (lines 263-264):
`"." in filename and filename.rsplit(".", 1)[1].lower() in ALLOWED_EXTENSIONS`. -/
def allowed_file (filename : String) : Bool :=
  match splitLast '.' filename.toList with
  | none => false
  | some (_, tail) => ALLOWED_EXTENSIONS.contains (strLower (String.mk tail))

/-- `os.path.splitext` on a bare filename (no directory separators): splits
at the last dot unless every character before that dot is itself a dot
(so `".bashrc"` has no extension). -/
def splitext (fname : String) : String × String :=
  match splitLast '.' fname.toList with
  | none => (fname, "")
  | some (b, a) =>
      if b.all (fun c => c = '.') then (fname, "")
      else (String.mk b, String.mk ('.' :: a))

/-- Decimal digit character, `0 ≤ d ≤ 9 ↦ '0'..'9'`. -/
def decDigit (d : Nat) : Char :=
  Char.ofNat (48 + d)

/-- Little-endian decimal digits of `n`; the fuel is structural and any
fuel ≥ the digit count (in particular `n` itself) is enough. -/
def decDigitsCore : Nat → Nat → List Char
  | 0, _ => []
  | fuel + 1, n =>
      if n = 0 then [] else decDigit (n % 10) :: decDigitsCore fuel (n / 10)

/-- Decimal rendering of a natural number, as Python's `str(i)` inside the
f-string `f"{base}_{i}{ext}"`. -/
def decRepr (n : Nat) : String :=
  if n = 0 then "0" else String.mk (decDigitsCore n n).reverse

/-- The `i`-th probe name `f"{base}_{i}{ext}"` of `save_uploaded_photo`. -/
def photoCandidate (base extension : String) (i : Nat) : String :=
  base ++ "_" ++ decRepr i ++ extension

/-- The `while os.path.exists(...)` loop of `save_uploaded_photo` (app.py
lines 275-279), with the set of names already present in the upload folder
modelled as the list `existing` and an explicit fuel (the loop runs until a
free name is found; `probeLoop_isSome` below shows `existing.length + 2`
fuel always suffices). -/
def probeLoop (base extension : String) (existing : List String) :
    Nat → Nat → String → Option String
  | 0, _, _ => none
  | fuel + 1, i, candidate =>
      if candidate ∈ existing then
        probeLoop base extension existing fuel (i + 1)
          (photoCandidate base extension i)
      else
        some candidate

/-- app.py `save_uploaded_photo` (lines 267-281).  An empty or
disallowed-extension upload yields the empty stored name; otherwise the
werkzeug-sanitized name (`sanitized`, an external collaborator's output) is
probed against the existing names, appending `_1`, `_2`, … before the
extension until a free name is found, and the file is saved under that
name. -/
def save_uploaded_photo (filename sanitized : String)
    (existing : List String) : Option String :=
  if filename = "" then some ""
  else if ¬ allowed_file filename then some ""
  else
    let p := splitext sanitized
    probeLoop p.1 p.2 existing (existing.length + 2) 1 sanitized

/-! ## Properties of the `ORDER BY urgent_level DESC, id DESC` sort -/

lemma shelterBefore_refl (a : ShelterRow) : shelterBefore a a = true := by
  simp [shelterBefore]

lemma shelterBefore_total (a b : ShelterRow) :
    shelterBefore a b = true ∨ shelterBefore b a = true := by
  simp only [shelterBefore, decide_eq_true_eq]
  omega

lemma shelterBefore_trans {a b c : ShelterRow} (hab : shelterBefore a b = true)
    (hbc : shelterBefore b c = true) : shelterBefore a c = true := by
  simp only [shelterBefore, decide_eq_true_eq] at hab hbc ⊢
  omega

lemma insertShelter_ne_nil (a : ShelterRow) (l : List ShelterRow) :
    insertShelter a l ≠ [] := by
  cases l with
  | nil => simp [insertShelter]
  | cons b bs =>
      simp only [insertShelter]
      split <;> simp

lemma sortShelters_eq_nil {l : List ShelterRow} (h : sortShelters l = []) :
    l = [] := by
  cases l with
  | nil => rfl
  | cons a as_ => exact absurd h (insertShelter_ne_nil a (sortShelters as_))

lemma mem_insertShelter {x a : ShelterRow} {l : List ShelterRow} :
    x ∈ insertShelter a l ↔ x = a ∨ x ∈ l := by
  induction l with
  | nil => simp [insertShelter]
  | cons b bs ih =>
      simp only [insertShelter]
      split
      · simp
      · simp only [List.mem_cons, ih]
        tauto

lemma mem_sortShelters {x : ShelterRow} {l : List ShelterRow} :
    x ∈ sortShelters l ↔ x ∈ l := by
  induction l with
  | nil => simp [sortShelters]
  | cons a as_ ih =>
      simp only [sortShelters, mem_insertShelter, ih, List.mem_cons]

/-- The head of the sorted shelter list is a member of the original list
that every shelter sorts after: it realises the maximum of the
`(urgent_level, id)` lexicographic key. -/
lemma sortShelters_head_max :
    ∀ (l : List ShelterRow) (t : ShelterRow) (ts : List ShelterRow),
      sortShelters l = t :: ts → t ∈ l ∧ ∀ s ∈ l, shelterBefore t s = true := by
  intro l
  induction l with
  | nil => intro t ts h; simp [sortShelters] at h
  | cons a as_ ih =>
      intro t ts h
      simp only [sortShelters] at h
      cases hs : sortShelters as_ with
      | nil =>
          have has : as_ = [] := sortShelters_eq_nil hs
          rw [hs] at h
          simp only [insertShelter] at h
          injection h with h1 _
          subst h1
          subst has
          refine ⟨List.mem_cons_self .., ?_⟩
          intro s hsmem
          rcases List.mem_singleton.mp hsmem with rfl
          exact shelterBefore_refl s
      | cons b bs =>
          rw [hs] at h
          obtain ⟨hbmem, hbmax⟩ := ih b bs hs
          simp only [insertShelter] at h
          by_cases hab : shelterBefore a b = true
          · rw [if_pos hab] at h
            injection h with h1 _
            subst h1
            refine ⟨List.mem_cons_self .., ?_⟩
            intro s hsmem
            rcases List.mem_cons.mp hsmem with rfl | hsmem
            · exact shelterBefore_refl s
            · exact shelterBefore_trans hab (hbmax s hsmem)
          · rw [if_neg hab] at h
            injection h with h1 _
            subst h1
            have hba : shelterBefore b a = true := by
              rcases shelterBefore_total a b with htot | htot
              · exact absurd htot hab
              · exact htot
            refine ⟨List.mem_cons_of_mem a hbmem, ?_⟩
            intro s hsmem
            rcases List.mem_cons.mp hsmem with rfl | hsmem
            · exact hba
            · exact hbmax s hsmem

/-! ## Properties of the photo-name probing loop -/

/-- Numeric value of a decimal digit character. -/
def charVal (c : Char) : Nat := c.toNat - 48

/-- Value of a little-endian decimal digit list. -/
def valAux : List Char → Nat
  | [] => 0
  | c :: cs => charVal c + 10 * valAux cs

lemma charVal_decDigit (d : Nat) (h : d < 10) : charVal (decDigit d) = d := by
  interval_cases d <;> rfl

lemma valAux_decDigitsCore :
    ∀ (f n : Nat), n < 10 ^ f → valAux (decDigitsCore f n) = n := by
  intro f
  induction f with
  | zero =>
      intro n hn
      interval_cases n
      rfl
  | succ f ih =>
      intro n hn
      by_cases h0 : n = 0
      · subst h0; simp [decDigitsCore, valAux]
      · have hdiv : n / 10 < 10 ^ f := by
          rw [Nat.div_lt_iff_lt_mul (by norm_num)]
          calc n < 10 ^ (f + 1) := hn
            _ = 10 ^ f * 10 := by ring
        simp only [decDigitsCore, if_neg h0, valAux]
        rw [charVal_decDigit (n % 10) (Nat.mod_lt n (by norm_num)), ih (n / 10) hdiv]
        omega

lemma valAux_decRepr_data (n : Nat) :
    valAux ((decRepr n).data.reverse) = n := by
  by_cases h0 : n = 0
  · subst h0; rfl
  · simp only [decRepr, if_neg h0]
    rw [List.reverse_reverse]
    exact valAux_decDigitsCore n n (Nat.lt_pow_self (by norm_num) n)

lemma decRepr_inj {m n : Nat} (h : decRepr m = decRepr n) : m = n := by
  have := congrArg (fun s => valAux s.data.reverse) h
  simpa [valAux_decRepr_data] using this

lemma photoCandidate_inj (base extension : String) {i j : Nat}
    (h : photoCandidate base extension i = photoCandidate base extension j) :
    i = j := by
  apply decRepr_inj
  have hd := congrArg String.data h
  simp only [photoCandidate, String.data_append] at hd
  have h1 := List.append_cancel_right hd
  have h2 := List.append_cancel_left h1
  exact String.ext_iff.mpr h2

/-- Pigeonhole for the probing loop: among the first `existing.length + 1`
suffixed candidates, at least one is not an existing name (the candidates
are pairwise distinct while `existing` only has `existing.length` members). -/
lemma exists_free_candidate (base extension : String) (existing : List String) :
    ∃ j, 1 ≤ j ∧ j ≤ existing.length + 1 ∧
      photoCandidate base extension j ∉ existing := by
  by_contra hcon
  push_neg at hcon
  have hsub : (Finset.Icc 1 (existing.length + 1)).image
      (photoCandidate base extension) ⊆ existing.toFinset := by
    intro x hx
    rcases Finset.mem_image.mp hx with ⟨j, hj, rfl⟩
    rcases Finset.mem_Icc.mp hj with ⟨hj1, hj2⟩
    exact List.mem_toFinset.mpr (hcon j hj1 hj2)
  have hcard : ((Finset.Icc 1 (existing.length + 1)).image
      (photoCandidate base extension)).card = existing.length + 1 := by
    rw [Finset.card_image_of_injOn (fun a _ b _ hab =>
      photoCandidate_inj base extension hab)]
    rw [Nat.card_Icc]
    omega
  have : existing.length + 1 ≤ existing.length :=
    le_trans (hcard ▸ Finset.card_le_card hsub)
      (List.toFinset_card_le existing)
  omega

/-- Fuel sufficiency for the probing loop: as soon as the current candidate
or one of the next `f` suffixed candidates is free, fuel `f + 1` finds a
name. -/
lemma probeLoop_isSome (base extension : String) (existing : List String) :
    ∀ (f i : Nat) (c : String),
      (c ∉ existing ∨
        ∃ j, i ≤ j ∧ j < i + f ∧ photoCandidate base extension j ∉ existing) →
      ∃ r, probeLoop base extension existing (f + 1) i c = some r := by
  intro f
  induction f with
  | zero =>
      intro i c hc
      have hfree : c ∉ existing := by
        rcases hc with hfree | ⟨j, hj1, hj2, _⟩
        · exact hfree
        · omega
      exact ⟨c, by simp [probeLoop, hfree]⟩
  | succ f ih =>
      intro i c hc
      by_cases hmem : c ∈ existing
      · have hnext : photoCandidate base extension i ∉ existing ∨
            ∃ j, i + 1 ≤ j ∧ j < i + 1 + f ∧
              photoCandidate base extension j ∉ existing := by
          rcases hc with hfree | ⟨j, hj1, hj2, hjf⟩
          · exact absurd hmem hfree
          · rcases Nat.eq_or_lt_of_le hj1 with rfl | hj1'
            · exact Or.inl hjf
            · exact Or.inr ⟨j, hj1', by omega, hjf⟩
        rcases ih (i + 1) (photoCandidate base extension i) hnext with ⟨r, hr⟩
        exact ⟨r, by simp only [probeLoop, if_pos hmem]; exact hr⟩
      · exact ⟨c, by simp [probeLoop, hmem]⟩

/-- Partial-correctness of the probing loop: whatever fuel produced it, the
returned name is not an existing one; it is the sanitized name when that was
free, and otherwise the first free suffixed candidate. -/
lemma probeLoop_spec (base extension : String) (existing : List String) :
    ∀ (f i : Nat) (c r : String),
      probeLoop base extension existing f i c = some r →
      r ∉ existing ∧
      (c ∉ existing → r = c) ∧
      (c ∈ existing → ∃ j, i ≤ j ∧ r = photoCandidate base extension j ∧
        ∀ k, i ≤ k → k < j → photoCandidate base extension k ∈ existing) := by
  intro f
  induction f with
  | zero => intro i c r h; simp [probeLoop] at h
  | succ f ih =>
      intro i c r h
      by_cases hmem : c ∈ existing
      · simp only [probeLoop, if_pos hmem] at h
        obtain ⟨hfree, hkeep, hprobe⟩ := ih (i + 1) (photoCandidate base extension i) r h
        refine ⟨hfree, fun hc => absurd hmem hc, fun _ => ?_⟩
        by_cases hcand : photoCandidate base extension i ∈ existing
        · rcases hprobe hcand with ⟨j, hj1, hj2, hj3⟩
          refine ⟨j, by omega, hj2, fun k hk1 hk2 => ?_⟩
          rcases Nat.eq_or_lt_of_le hk1 with rfl | hk1'
          · exact hcand
          · exact hj3 k hk1' hk2
        · refine ⟨i, le_refl i, hkeep hcand, fun k hk1 hk2 => ?_⟩
          omega
      · simp only [probeLoop, if_neg hmem, Option.some.injEq] at h
        subst h
        exact ⟨hmem, fun _ => rfl, fun hc => absurd hc hmem⟩

/-! ## Concrete fixtures used by witnesses and counterexamples -/

/-- A concrete `admins` row (`must_reset_password` given as `flag`). -/
def sampleAdmin (id flag : Nat) : AdminRow :=
  { id := id, username := "admin", password_hash := "AHASH", full_name := "Admin",
    email := "admin@local", phone := "", must_reset_password := flag }

/-- A concrete `users` row. -/
def sampleUser (id : Nat) (email : String) : UserRow :=
  { id := id, first_name := "Ana", last_name := "Pop", email := email,
    phone := "0700", password_hash := "UHASH" }

/-- A concrete `shelter_requests` row. -/
def sampleRequest (id : Nat) (status email : String)
    (reviewed : Option String) : ShelterRequestRow :=
  { id := id, name := "Org", email := email, phone := "1", address := "Str. 1",
    description := "d", website := "w", photo_filename := "org.png",
    password_hash := "RHASH", shelter_type := "General", pickup_service := 1,
    status := status, submitted_at := "2024-01-01", reviewed_at := reviewed }

/-- A concrete `shelters` row. -/
def sampleShelter (id : Nat) (email : String) (urgent : Int) : ShelterRow :=
  { id := id, name := "Shelter", email := email, phone := "2", address := "Str. 2",
    description := "d", website := "w", photo_filename := "s.png",
    password_hash := "SHASH", shelter_type := "General", urgent_level := urgent,
    pickup_service := 1, created_at := "2024-01-02" }

/-- The empty store. -/
def emptyDb : Db :=
  { users := [], admins := [], shelters := [], shelter_requests := [], donations := [] }

/-- A session with only the admin identity bound (to admin id 1). -/
def adminSession : Session :=
  { user_id := none, admin_id := some 1, shelter_id := none }

/-! ## C1 — approving an already-decided request -/

/-- Fixture for C1's counterexample: a lone REJECTED request (its rejection
never created a shelter, so its email is free) under an admin session. -/
def dbC1 : Db :=
  { emptyDb with
    admins := [sampleAdmin 1 0],
    shelter_requests := [sampleRequest 1 "REJECTED" "org@x.ro" (some "2024-01-03")] }

/-- C1 counterexample: approving a request that is already in the terminal
REJECTED state is neither a no-op nor a conflict — the handler checks no
status, inserts a Shelter row (changing the shelters table) and overwrites
the status to APPROVED. -/
theorem c1_counterexample :
    (sampleRequest 1 "REJECTED" "org@x.ro" (some "2024-01-03")).status = "REJECTED" ∧
    (admin_shelter_request_approve dbC1 adminSession 1 "2024-01-04").1 =
      ApproveOutcome.approved ∧
    (admin_shelter_request_approve dbC1 adminSession 1 "2024-01-04").2.shelters ≠
      dbC1.shelters ∧
    (admin_shelter_request_approve dbC1 adminSession 1 "2024-01-04").2.shelter_requests.map
      ShelterRequestRow.status = ["APPROVED"] := by
  decide

/-- C1 (amended): re-approving a terminal request whose email still names an
existing Shelter row — the situation produced by its first approval — fails
with the shelters-email uniqueness conflict (`sqlite3.IntegrityError`),
inserts no second Shelter row and leaves the store unchanged; only a
terminal request whose email has no Shelter row (e.g. a REJECTED one) is
silently re-processed. -/
theorem c1_amended_terminal_approve_conflict (db : Db) (sess : Session)
    (req_id : Nat) (now : String) (r : ShelterRequestRow) (aid : Nat)
    (hadmin : sess.admin_id = some aid)
    (hfind : findRequestById db req_id = some r)
    (hstatus : r.status = "APPROVED" ∨ r.status = "REJECTED")
    (hdup : ∃ s ∈ db.shelters, s.email = r.email) :
    admin_shelter_request_approve db sess req_id now =
      (ApproveOutcome.integrityError, db) := by
  obtain ⟨s, hs, hse⟩ := hdup
  have hany : db.shelters.any (fun s => s.email == r.email) = true :=
    List.any_eq_true.mpr ⟨s, hs, by simpa using hse⟩
  simp [admin_shelter_request_approve, require_admin, hadmin, hfind, hany]

/-- Fixture for C1's witness: an APPROVED request together with the shelter
row its first approval created. -/
def dbC1w : Db :=
  { emptyDb with
    admins := [sampleAdmin 1 0],
    shelters := [sampleShelter 1 "org@x.ro" 0],
    shelter_requests := [sampleRequest 1 "APPROVED" "org@x.ro" (some "2024-01-03")] }

/-- Witness for the amended C1 at a concrete input. -/
theorem c1_amended_witness :
    admin_shelter_request_approve dbC1w adminSession 1 "2024-01-05" =
      (ApproveOutcome.integrityError, dbC1w) :=
  c1_amended_terminal_approve_conflict dbC1w adminSession 1 "2024-01-05"
    (sampleRequest 1 "APPROVED" "org@x.ro" (some "2024-01-03")) 1
    (by decide) (by decide) (by decide)
    ⟨sampleShelter 1 "org@x.ro" 0, by decide, by decide⟩

/-! ## C2 — rejecting an already-decided request -/

/-- Fixture for C2's counterexample: a request already APPROVED. -/
def dbC2 : Db :=
  { emptyDb with
    admins := [sampleAdmin 1 0],
    shelter_requests := [sampleRequest 1 "APPROVED" "org2@x.ro" (some "2024-01-03")] }

/-- C2 counterexample: rejecting a request whose status is the terminal
APPROVED silently overwrites the stored status with REJECTED (and bumps
`reviewed_at`), while reporting success — the handler performs a single
unconditional UPDATE. -/
theorem c2_counterexample :
    (sampleRequest 1 "APPROVED" "org2@x.ro" (some "2024-01-03")).status = "APPROVED" ∧
    (admin_shelter_request_reject dbC2 adminSession 1 "2024-01-06").1 =
      RejectOutcome.rejectedFlash ∧
    (admin_shelter_request_reject dbC2 adminSession 1 "2024-01-06").2.shelter_requests.map
      ShelterRequestRow.status = ["REJECTED"] := by
  decide

/-- C2 (amended): the reject operation performs no terminal-state check at
all — for any session with an admin bound it reports success and overwrites
the status of every request row matching the id (decided or not) with
REJECTED, setting `reviewed_at`. -/
theorem c2_amended_reject_overwrites (db : Db) (sess : Session) (req_id : Nat)
    (now : String) (aid : Nat) (hadmin : sess.admin_id = some aid) :
    (admin_shelter_request_reject db sess req_id now).1 =
      RejectOutcome.rejectedFlash ∧
    (admin_shelter_request_reject db sess req_id now).2.shelter_requests =
      db.shelter_requests.map (fun q =>
        if q.id = req_id then { q with status := "REJECTED", reviewed_at := some now }
        else q) := by
  simp [admin_shelter_request_reject, require_admin, hadmin]

/-- Witness for the amended C2 at a concrete input. -/
theorem c2_amended_witness :
    (admin_shelter_request_reject dbC2 adminSession 1 "2024-01-06").1 =
      RejectOutcome.rejectedFlash ∧
    (admin_shelter_request_reject dbC2 adminSession 1 "2024-01-06").2.shelter_requests =
      dbC2.shelter_requests.map (fun q =>
        if q.id = 1 then { q with status := "REJECTED", reviewed_at := some "2024-01-06" }
        else q) :=
  c2_amended_reject_overwrites dbC2 adminSession 1 "2024-01-06" 1 (by decide)

/-! ## C7 — rejecting a nonexistent request id -/

/-- Fixture for C7's counterexample: a store whose only request has id 1. -/
def dbC7 : Db :=
  { emptyDb with
    admins := [sampleAdmin 1 0],
    shelter_requests := [sampleRequest 1 "PENDING" "org3@x.ro" none] }

/-- C7 counterexample: rejecting the nonexistent request id 5 does not fail
with a not-found condition — the unconditional UPDATE matches zero rows and
the handler still flashes success, leaving the store unchanged. -/
theorem c7_counterexample :
    findRequestById dbC7 5 = none ∧
    admin_shelter_request_reject dbC7 adminSession 5 "2024-01-06" =
      (RejectOutcome.rejectedFlash, dbC7) := by
  decide

/-- The reject UPDATE touches no row when no row has the targeted id. -/
lemma reject_map_id {l : List ShelterRequestRow} {rid : Nat} {now : String}
    (h : ∀ q ∈ l, q.id ≠ rid) :
    l.map (fun q =>
      if q.id = rid then { q with status := "REJECTED", reviewed_at := some now }
      else q) = l := by
  induction l with
  | nil => rfl
  | cons q qs ih =>
      simp only [List.map_cons]
      rw [if_neg (h q (List.mem_cons_self ..)),
        ih (fun p hp => h p (List.mem_cons_of_mem _ hp))]

/-- C7 (amended): for a request id absent from the store, the reject
operation reports success while updating zero rows; no not-found condition
is raised and the store is unchanged. -/
theorem c7_amended_reject_missing_id (db : Db) (sess : Session) (req_id : Nat)
    (now : String) (aid : Nat) (hadmin : sess.admin_id = some aid)
    (hmiss : findRequestById db req_id = none) :
    admin_shelter_request_reject db sess req_id now =
      (RejectOutcome.rejectedFlash, db) := by
  have hall : ∀ q ∈ db.shelter_requests, q.id ≠ req_id := by
    intro q hq
    have := List.find?_eq_none.mp hmiss q hq
    simpa using this
  simp [admin_shelter_request_reject, require_admin, hadmin, reject_map_id hall]

/-- Witness for the amended C7 at a concrete input. -/
theorem c7_amended_witness :
    admin_shelter_request_reject dbC7 adminSession 7 "2024-01-07" =
      (RejectOutcome.rejectedFlash, dbC7) :=
  c7_amended_reject_missing_id dbC7 adminSession 7 "2024-01-07" 1 (by decide) (by decide)

/-! ## C3 — the forced credential-rotation gate -/

/-- Fixture for C3's counterexample: the seeded administrator still carrying
`must_reset_password = 1`. -/
def dbC3 : Db := { emptyDb with admins := [sampleAdmin 1 1] }

/-- C3 counterexample: with the must-reset flag still set and the admin
session bound, a request to the admin dashboard is NOT redirected to the
credential-reset flow — `require_admin` checks only session presence, so
the dashboard renders. -/
theorem c3_counterexample :
    (sampleAdmin 1 1).must_reset_password = 1 ∧
    adminSession.admin_id = some (sampleAdmin 1 1).id ∧
    admin_dashboard dbC3 adminSession = AdminPageOutcome.renders := by
  decide

/-- C3 (amended): the redirect to the credential-reset flow happens only in
the login response itself: a successful login with the flag set redirects to
the reset flow, and the reset operation stores a fresh hash and clears the
flag — but every other administrative route is gated only on session
presence, so while the flag is still set the dashboard (and every route
guarded the same way) renders rather than redirecting to the reset flow. -/
theorem c3_amended_reset_gate (chk : String → String → Bool)
    (gph : String → String) (db : Db) (sess : Session)
    (username password newpw : String) (admin : AdminRow)
    (hfind : findAdminByUsername db (strStrip username) = some admin)
    (hchk : chk admin.password_hash password = true)
    (hflag : admin.must_reset_password = 1) :
    (admin_login chk db sess username password).1 =
      AdminLoginOutcome.redirectResetPassword ∧
    (admin_login chk db sess username password).2.admin_id = some admin.id ∧
    admin_dashboard db (admin_login chk db sess username password).2 =
      AdminPageOutcome.renders ∧
    (admin_reset_password_save gph db (admin_login chk db sess username password).2
        newpw newpw).1 = ResetOutcome.redirectDashboard ∧
    ∀ a ∈ (admin_reset_password_save gph db
        (admin_login chk db sess username password).2 newpw newpw).2.admins,
      a.id = admin.id → a.must_reset_password = 0 ∧ a.password_hash = gph newpw := by
  have hlogin : admin_login chk db sess username password =
      (AdminLoginOutcome.redirectResetPassword,
       { sess with admin_id := some admin.id }) := by
    simp [admin_login, hfind, hchk, hflag]
  refine ⟨by rw [hlogin], by rw [hlogin], by rw [hlogin]; rfl, ?_, ?_⟩
  · rw [hlogin]
    simp [admin_reset_password_save]
  · intro a ha haid
    rw [hlogin] at ha
    simp only [admin_reset_password_save, ne_eq, not_true_eq_false, if_false,
      ite_self, if_neg (show ¬ newpw ≠ newpw from fun h => h rfl)] at ha
    rcases List.mem_map.mp ha with ⟨a0, ha0, rfl⟩
    by_cases h0 : a0.id = admin.id
    · simp [h0]
    · simp only [if_neg h0] at haid ⊢
      exact absurd haid h0

/-- Fixture session for C3's witness: nothing bound yet. -/
def emptySession : Session := { user_id := none, admin_id := none, shelter_id := none }

/-- Witness for the amended C3 at a concrete input. -/
theorem c3_amended_witness :
    (admin_login (fun h _ => h == "AHASH") dbC3 emptySession "admin" "pw").1 =
      AdminLoginOutcome.redirectResetPassword ∧
    (admin_login (fun h _ => h == "AHASH") dbC3 emptySession "admin" "pw").2.admin_id =
      some (sampleAdmin 1 1).id ∧
    admin_dashboard dbC3
      (admin_login (fun h _ => h == "AHASH") dbC3 emptySession "admin" "pw").2 =
      AdminPageOutcome.renders ∧
    (admin_reset_password_save (fun p => p ++ "#") dbC3
        (admin_login (fun h _ => h == "AHASH") dbC3 emptySession "admin" "pw").2
        "npw" "npw").1 = ResetOutcome.redirectDashboard ∧
    ∀ a ∈ (admin_reset_password_save (fun p => p ++ "#") dbC3
        (admin_login (fun h _ => h == "AHASH") dbC3 emptySession "admin" "pw").2
        "npw" "npw").2.admins,
      a.id = (sampleAdmin 1 1).id →
        a.must_reset_password = 0 ∧ a.password_hash = (fun p => p ++ "#") "npw" :=
  c3_amended_reset_gate (fun h _ => h == "AHASH") (fun p => p ++ "#") dbC3
    emptySession "admin" "pw" "npw" (sampleAdmin 1 1) (by decide) (by decide) (by decide)

/-! ## C4 — routing with zero shelters -/

/-- Fixture for C4: a registered member but no shelters at all. -/
def dbC4 : Db := { emptyDb with users := [sampleUser 1 "ana@x.ro"] }

/-- Session for C4: the member is authenticated. -/
def userSession : Session :=
  { user_id := some 1, admin_id := none, shelter_id := none }

/-- C4 counterexample: with zero shelters, routing in automatic mode does
not fail — it records a donation row whose `shelter_id` is the literal `0`,
a dangling reference to a nonexistent shelter. -/
theorem c4_counterexample :
    dbC4.shelters = [] ∧
    (ajuta_category dbC4 userSession "money" "auto" "10" "" "" [] "2024-01-08").1 =
      AjutaOutcome.submitted 0 ∧
    (ajuta_category dbC4 userSession "money" "auto" "10" "" "" [] "2024-01-08").2.donations.map
      DonationRow.shelter_id = [0] := by
  decide

/-- C4 (amended): when zero shelters exist and the mode is automatic (or
manual with no selection), the routing operation does not fail with a
no-shelters condition: it succeeds and records exactly one assistance
record whose `shelter_id` is `0`, referencing no shelter. -/
theorem c4_amended_zero_shelters_dangling (db : Db) (sess : Session)
    (category mode amount details message : String) (chosen_ids : List Nat)
    (now : String) (u : UserRow)
    (hcat : category = "materials" ∨ category = "money" ∨ category = "volunteer")
    (hu : current_user sess db = some u)
    (hnosh : db.shelters = [])
    (hmode : mode = "auto" ∨ (mode = "manual" ∧ chosen_ids = [])) :
    (ajuta_category db sess category mode amount details message chosen_ids now).1 =
      AjutaOutcome.submitted 0 ∧
    (ajuta_category db sess category mode amount details message chosen_ids now).2.donations =
      db.donations ++
        [{ id := nextDonationId db, user_id := u.id, category := category,
           shelter_id := 0, amount := amount, details := strStrip details,
           message := strStrip message, created_at := now }] := by
  rcases hmode with rfl | ⟨rfl, rfl⟩ <;>
    simp [ajuta_category, not_not_intro hcat, hu, hnosh, sortShelters]

/-- Witness for the amended C4 at a concrete input. -/
theorem c4_amended_witness :
    (ajuta_category dbC4 userSession "volunteer" "manual" "0" "" "" [] "2024-01-08").1 =
      AjutaOutcome.submitted 0 ∧
    (ajuta_category dbC4 userSession "volunteer" "manual" "0" "" "" [] "2024-01-08").2.donations =
      dbC4.donations ++
        [{ id := nextDonationId dbC4, user_id := (sampleUser 1 "ana@x.ro").id,
           category := "volunteer", shelter_id := 0, amount := "0",
           details := strStrip "", message := strStrip "",
           created_at := "2024-01-08" }] :=
  c4_amended_zero_shelters_dangling dbC4 userSession "volunteer" "manual" "0" "" ""
    [] "2024-01-08" (sampleUser 1 "ana@x.ro")
    (Or.inr (Or.inr rfl)) (by decide) (by decide) (Or.inr ⟨rfl, rfl⟩)

/-! ## C5 — the routing selection policy -/

/-- C5: with at least one shelter, automatic routing (and manual routing
with no selection) targets a shelter of maximal `urgent_level`, breaking
ties by the largest id — creation order follows `AUTOINCREMENT` ids, so the
largest id is the most recently created; with `mode = "manual"` and at
least one chosen id, the target is exactly the first chosen id, regardless
of urgency. -/
theorem c5_routing_selection (db : Db) (sess : Session)
    (category mode amount details message : String) (chosen_ids : List Nat)
    (now : String) (u : UserRow)
    (hcat : category = "materials" ∨ category = "money" ∨ category = "volunteer")
    (hu : current_user sess db = some u) :
    ((mode = "auto" ∨ (mode = "manual" ∧ chosen_ids = [])) → db.shelters ≠ [] →
      ∃ t, t ∈ db.shelters ∧
        (ajuta_category db sess category mode amount details message chosen_ids now).1 =
          AjutaOutcome.submitted t.id ∧
        ∀ s ∈ db.shelters, s.urgent_level < t.urgent_level ∨
          (s.urgent_level = t.urgent_level ∧ s.id ≤ t.id)) ∧
    (∀ c cs, mode = "manual" → chosen_ids = c :: cs →
      (ajuta_category db sess category mode amount details message chosen_ids now).1 =
        AjutaOutcome.submitted c) := by
  constructor
  · intro hmode hne
    cases hs : sortShelters db.shelters with
    | nil => exact absurd (sortShelters_eq_nil hs) hne
    | cons t ts =>
        obtain ⟨htm, htmax⟩ := sortShelters_head_max db.shelters t ts hs
        refine ⟨t, htm, ?_, ?_⟩
        · rcases hmode with rfl | ⟨rfl, rfl⟩ <;>
            simp [ajuta_category, not_not_intro hcat, hu, hs]
        · intro s hsmem
          have := htmax s hsmem
          simp only [shelterBefore, decide_eq_true_eq] at this
          omega
  · intro c cs hmode hchosen
    subst hmode
    subst hchosen
    simp [ajuta_category, not_not_intro hcat, hu]

/-- Fixture for C5's witness: shelters with urgency levels 0, 5 and 3. -/
def dbC5 : Db :=
  { emptyDb with
    users := [sampleUser 1 "ana@x.ro"],
    shelters := [sampleShelter 1 "s1@x.ro" 0, sampleShelter 2 "s2@x.ro" 5,
                 sampleShelter 3 "s3@x.ro" 3] }

/-- Witness for C5 at a concrete input. -/
theorem c5_witness :
    (("money" : String) = "materials" ∨ ("money" : String) = "money" ∨
      ("money" : String) = "volunteer") ∧
    current_user userSession dbC5 = some (sampleUser 1 "ana@x.ro") ∧
    ((("auto" : String) = "auto" ∨ (("auto" : String) = "manual" ∧ ([] : List Nat) = [])) →
      dbC5.shelters ≠ [] →
      ∃ t, t ∈ dbC5.shelters ∧
        (ajuta_category dbC5 userSession "money" "auto" "10" "" "" [] "2024-01-08").1 =
          AjutaOutcome.submitted t.id ∧
        ∀ s ∈ dbC5.shelters, s.urgent_level < t.urgent_level ∨
          (s.urgent_level = t.urgent_level ∧ s.id ≤ t.id)) :=
  ⟨Or.inr (Or.inl rfl), by decide,
    (c5_routing_selection dbC5 userSession "money" "auto" "10" "" "" [] "2024-01-08"
      (sampleUser 1 "ana@x.ro") (Or.inr (Or.inl rfl)) (by decide)).1⟩

/-! ## C6 — a successful approve copies the request verbatim -/

/-- C6: whenever the approve operation succeeds on an existing request, it
appends exactly one new Shelter row whose onboarding fields — name, email,
phone, address, description, website, photo reference, credential hash,
shelter category and pickup-service flag — are each equal to the request's
corresponding field (the credential hash is copied verbatim: the handler
takes no hashing function at all, so it cannot re-hash), and every request
row with that id now carries status APPROVED and a non-null `reviewed_at`. -/
theorem c6_approve_copies_request (db : Db) (sess : Session) (req_id : Nat)
    (now : String) (r : ShelterRequestRow)
    (hfind : findRequestById db req_id = some r)
    (hok : (admin_shelter_request_approve db sess req_id now).1 =
      ApproveOutcome.approved) :
    ∃ s : ShelterRow,
      (admin_shelter_request_approve db sess req_id now).2.shelters =
        db.shelters ++ [s] ∧
      s.name = r.name ∧ s.email = r.email ∧ s.phone = r.phone ∧
      s.address = r.address ∧ s.description = r.description ∧
      s.website = r.website ∧ s.photo_filename = r.photo_filename ∧
      s.password_hash = r.password_hash ∧ s.shelter_type = r.shelter_type ∧
      s.pickup_service = r.pickup_service ∧
      (∃ q ∈ (admin_shelter_request_approve db sess req_id now).2.shelter_requests,
        q.id = req_id ∧ q.status = "APPROVED" ∧ q.reviewed_at = some now) ∧
      (∀ q ∈ (admin_shelter_request_approve db sess req_id now).2.shelter_requests,
        q.id = req_id → q.status = "APPROVED" ∧ q.reviewed_at = some now) := by
  rcases hsess : sess.admin_id with _ | aid
  · exfalso
    simp [admin_shelter_request_approve, require_admin, hsess] at hok
  by_cases hany : db.shelters.any (fun s => s.email == r.email) = true
  · exfalso
    simp [admin_shelter_request_approve, require_admin, hsess, hfind, hany] at hok
  have happ : admin_shelter_request_approve db sess req_id now =
      (ApproveOutcome.approved,
       { db with
         shelters := db.shelters ++ [promoteRequest r (nextShelterId db) now],
         shelter_requests := db.shelter_requests.map (fun q =>
           if q.id = req_id then
             { q with status := "APPROVED", reviewed_at := some now }
           else q) }) := by
    simp [admin_shelter_request_approve, require_admin, hsess, hfind, hany]
  have hrmem : r ∈ db.shelter_requests := List.mem_of_find?_eq_some hfind
  have hrid : r.id = req_id := by
    have := List.find?_some hfind
    simpa using this
  refine ⟨promoteRequest r (nextShelterId db) now, by rw [happ],
    rfl, rfl, rfl, rfl, rfl, rfl, rfl, rfl, rfl, rfl, ?_, ?_⟩
  · rw [happ]
    refine ⟨{ r with status := "APPROVED", reviewed_at := some now },
      List.mem_map.mpr ⟨r, hrmem, by rw [if_pos hrid]⟩, by simpa using hrid, rfl, rfl⟩
  · rw [happ]
    intro q hq hqid
    rcases List.mem_map.mp hq with ⟨q0, _, rfl⟩
    by_cases h0 : q0.id = req_id
    · simp [if_pos h0]
    · rw [if_neg h0] at hqid ⊢
      exact absurd hqid h0

/-- Fixture for C6's witness: a PENDING request under an admin session. -/
def dbC6 : Db :=
  { emptyDb with
    admins := [sampleAdmin 1 0],
    shelter_requests := [sampleRequest 1 "PENDING" "org6@x.ro" none] }

/-- Witness for C6 at a concrete input. -/
theorem c6_witness :
    ∃ s : ShelterRow,
      (admin_shelter_request_approve dbC6 adminSession 1 "2024-01-09").2.shelters =
        dbC6.shelters ++ [s] ∧
      s.name = (sampleRequest 1 "PENDING" "org6@x.ro" none).name ∧
      s.email = (sampleRequest 1 "PENDING" "org6@x.ro" none).email ∧
      s.phone = (sampleRequest 1 "PENDING" "org6@x.ro" none).phone ∧
      s.address = (sampleRequest 1 "PENDING" "org6@x.ro" none).address ∧
      s.description = (sampleRequest 1 "PENDING" "org6@x.ro" none).description ∧
      s.website = (sampleRequest 1 "PENDING" "org6@x.ro" none).website ∧
      s.photo_filename = (sampleRequest 1 "PENDING" "org6@x.ro" none).photo_filename ∧
      s.password_hash = (sampleRequest 1 "PENDING" "org6@x.ro" none).password_hash ∧
      s.shelter_type = (sampleRequest 1 "PENDING" "org6@x.ro" none).shelter_type ∧
      s.pickup_service = (sampleRequest 1 "PENDING" "org6@x.ro" none).pickup_service ∧
      (∃ q ∈ (admin_shelter_request_approve dbC6 adminSession 1 "2024-01-09").2.shelter_requests,
        q.id = 1 ∧ q.status = "APPROVED" ∧ q.reviewed_at = some "2024-01-09") ∧
      (∀ q ∈ (admin_shelter_request_approve dbC6 adminSession 1 "2024-01-09").2.shelter_requests,
        q.id = 1 → q.status = "APPROVED" ∧ q.reviewed_at = some "2024-01-09") :=
  c6_approve_copies_request dbC6 adminSession 1 "2024-01-09"
    (sampleRequest 1 "PENDING" "org6@x.ro" none) (by decide) (by decide)

/-! ## C8 — duplicate member registration -/

/-- C8: with no member yet holding the (normalised) email, a first valid
registration succeeds and appends exactly one row with that email; a second
registration submitting the same email (however spaced or cased) then fails
with the duplicate condition and adds no row — the collision fires at the
`INSERT` against the `users.email` uniqueness constraint (the handler does
no `SELECT` pre-check: it catches `sqlite3.IntegrityError`), which the
embedding models as the insert-time uniqueness test. -/
theorem c8_duplicate_registration (gph : String → String) (db : Db)
    (f1 l1 email1 p1 pw1 pw1b f2 l2 email2 p2 pw2 pw2b : String)
    (hsame : strLower (strStrip email2) = strLower (strStrip email1))
    (hne : strLower (strStrip email1) ≠ "")
    (hpw1 : pw1 ≠ "") (hpw1b : pw1 = pw1b)
    (hpw2 : pw2 ≠ "") (hpw2b : pw2 = pw2b)
    (hfree : ∀ u ∈ db.users, u.email ≠ strLower (strStrip email1)) :
    (register_user gph db f1 l1 email1 p1 pw1 pw1b).1 = RegisterOutcome.created ∧
    (∃ nu, (register_user gph db f1 l1 email1 p1 pw1 pw1b).2.users =
        db.users ++ [nu] ∧ nu.email = strLower (strStrip email1)) ∧
    register_user gph (register_user gph db f1 l1 email1 p1 pw1 pw1b).2
        f2 l2 email2 p2 pw2 pw2b =
      (RegisterOutcome.duplicateError,
       (register_user gph db f1 l1 email1 p1 pw1 pw1b).2) := by
  subst hpw1b
  subst hpw2b
  have hany1 : db.users.any (fun u => u.email == strLower (strStrip email1)) = false := by
    rw [List.any_eq_false]
    intro u hu
    simpa using hfree u hu
  have hreg1 : register_user gph db f1 l1 email1 p1 pw1 pw1 =
      (RegisterOutcome.created,
       { db with users := db.users ++
          [{ id := nextUserId db, first_name := strStrip f1, last_name := strStrip l1,
             email := strLower (strStrip email1), phone := strStrip p1,
             password_hash := gph pw1 }] }) := by
    simp [register_user, hne, hpw1, hany1]
  refine ⟨by rw [hreg1], ⟨_, by rw [hreg1], rfl⟩, ?_⟩
  rw [hreg1]
  have hany2 : ((db.users ++
      [{ id := nextUserId db, first_name := strStrip f1, last_name := strStrip l1,
         email := strLower (strStrip email1), phone := strStrip p1,
         password_hash := gph pw1 }] : List UserRow).any
        (fun u => u.email == strLower (strStrip email2))) = true := by
    rw [List.any_eq_true]
    refine ⟨_, List.mem_append_right _ (List.mem_singleton_self _), ?_⟩
    simp [hsame]
  have hne2 : strLower (strStrip email2) ≠ "" := by rw [hsame]; exact hne
  simp [register_user, hne2, hpw2, hany2]

/-- Fixture for C8's witness: an empty store. -/
def dbC8 : Db := emptyDb

/-- Witness for C8 at a concrete input: the same email registered twice,
the second time with different spacing and casing. -/
theorem c8_witness :
    (register_user (fun p => p ++ "#") dbC8 "Ana" "Pop" "ana@x.ro" "0700"
      "pw" "pw").1 = RegisterOutcome.created ∧
    (∃ nu, (register_user (fun p => p ++ "#") dbC8 "Ana" "Pop" "ana@x.ro" "0700"
        "pw" "pw").2.users = dbC8.users ++ [nu] ∧
      nu.email = strLower (strStrip "ana@x.ro")) ∧
    register_user (fun p => p ++ "#")
        (register_user (fun p => p ++ "#") dbC8 "Ana" "Pop" "ana@x.ro" "0700"
          "pw" "pw").2 "Ana" "Pop" " Ana@X.ro " "0700" "pw2" "pw2" =
      (RegisterOutcome.duplicateError,
       (register_user (fun p => p ++ "#") dbC8 "Ana" "Pop" "ana@x.ro" "0700"
         "pw" "pw").2) :=
  c8_duplicate_registration (fun p => p ++ "#") dbC8 "Ana" "Pop" "ana@x.ro" "0700"
    "pw" "pw" "Ana" "Pop" " Ana@X.ro " "0700" "pw2" "pw2"
    (by decide) (by decide) (by decide) rfl (by decide) rfl (by decide)

/-! ## C9 — collision-free photo storage names -/

/-- C9: for an upload whose extension passes the case-insensitive allow-list
and any list of names already present in storage, the naming algorithm
returns a name: the sanitized original name when it is free, and otherwise
the first suffixed candidate `base_1`, `base_2`, … (suffix before the
extension) that is not already present.  In particular the returned name is
never one that already exists, so no existing file is overwritten. -/
theorem c9_photo_name_resolution (filename sanitized : String)
    (existing : List String) (hallow : allowed_file filename = true) :
    ∃ c, save_uploaded_photo filename sanitized existing = some c ∧
      c ∉ existing ∧
      (sanitized ∉ existing → c = sanitized) ∧
      (sanitized ∈ existing →
        ∃ j, 1 ≤ j ∧
          c = photoCandidate (splitext sanitized).1 (splitext sanitized).2 j ∧
          ∀ k, 1 ≤ k → k < j →
            photoCandidate (splitext sanitized).1 (splitext sanitized).2 k ∈ existing) := by
  have hfn : filename ≠ "" := by
    intro h
    subst h
    simp [allowed_file, splitLast, String.toList] at hallow
  have hsave : save_uploaded_photo filename sanitized existing =
      probeLoop (splitext sanitized).1 (splitext sanitized).2 existing
        (existing.length + 2) 1 sanitized := by
    simp [save_uploaded_photo, hfn, hallow]
  have hhyp : sanitized ∉ existing ∨
      ∃ j, 1 ≤ j ∧ j < 1 + (existing.length + 1) ∧
        photoCandidate (splitext sanitized).1 (splitext sanitized).2 j ∉ existing := by
    by_cases hs : sanitized ∈ existing
    · obtain ⟨j, hj1, hj2, hj3⟩ :=
        exists_free_candidate (splitext sanitized).1 (splitext sanitized).2 existing
      exact Or.inr ⟨j, hj1, by omega, hj3⟩
    · exact Or.inl hs
  obtain ⟨r, hr⟩ := probeLoop_isSome (splitext sanitized).1 (splitext sanitized).2
    existing (existing.length + 1) 1 sanitized hhyp
  obtain ⟨hfree, hkeep, hprobe⟩ := probeLoop_spec (splitext sanitized).1
    (splitext sanitized).2 existing (existing.length + 2) 1 sanitized r hr
  refine ⟨r, ?_, hfree, hkeep, ?_⟩
  · rw [hsave]
    exact hr
  · intro hs
    obtain ⟨j, hj1, hj2, hj3⟩ := hprobe hs
    exact ⟨j, hj1, hj2, hj3⟩

/-- Witness for C9 at a concrete input: `cat.PNG` uploaded while `cat.PNG`
and `cat_1.PNG` already exist. -/
theorem c9_witness :
    ∃ c, save_uploaded_photo "cat.PNG" "cat.PNG" ["cat.PNG", "cat_1.PNG"] = some c ∧
      c ∉ ["cat.PNG", "cat_1.PNG"] ∧
      (("cat.PNG" : String) ∉ ["cat.PNG", "cat_1.PNG"] → c = "cat.PNG") ∧
      (("cat.PNG" : String) ∈ ["cat.PNG", "cat_1.PNG"] →
        ∃ j, 1 ≤ j ∧
          c = photoCandidate (splitext "cat.PNG").1 (splitext "cat.PNG").2 j ∧
          ∀ k, 1 ≤ k → k < j →
            photoCandidate (splitext "cat.PNG").1 (splitext "cat.PNG").2 k ∈
              ["cat.PNG", "cat_1.PNG"]) :=
  c9_photo_name_resolution "cat.PNG" "cat.PNG" ["cat.PNG", "cat_1.PNG"] (by decide)

/-! ## C10 — shelter rows with an empty stored credential hash -/

/-- Fixture for C10: a shelter row whose `password_hash` is the empty
string, the schema default taken by rows created before the
`password_hash` column repair of `init_db`. -/
def dbC10 : Db := { emptyDb with shelters := [
  { sampleShelter 1 "s@x.ro" 0 with password_hash := "" }] }

/-- C10 counterexample: the claim promises the generic invalid-credential
outcome for EVERY submitted password, but submitting the empty password
takes the earlier missing-fields validation branch, a different outcome
(though still no session). -/
theorem c10_counterexample :
    findShelterByEmail dbC10 "s@x.ro" = some
      { sampleShelter 1 "s@x.ro" 0 with password_hash := "" } ∧
    ({ sampleShelter 1 "s@x.ro" 0 with password_hash := "" } : ShelterRow).password_hash
      = "" ∧
    login_adapost (fun _ _ => true) dbC10 emptySession "s@x.ro" "" =
      (ShelterLoginOutcome.validationError, emptySession) ∧
    ShelterLoginOutcome.validationError ≠ ShelterLoginOutcome.invalidCredential := by
  decide

/-- C10 (amended): for a shelter row whose stored credential hash is the
empty string, login fails for every submitted password and never binds a
shelter session: a nonempty password (with a nonempty email) yields the
generic invalid-credential outcome — the hash checker is never even
consulted, whatever it would answer — while an empty password fails earlier
with the missing-fields validation outcome; in every case the session is
unchanged. -/
theorem c10_amended_empty_hash_login (chk : String → String → Bool) (db : Db)
    (sess : Session) (email password : String) (sh : ShelterRow)
    (hfind : findShelterByEmail db (strLower (strStrip email)) = some sh)
    (hhash : sh.password_hash = "") :
    (password ≠ "" → strLower (strStrip email) ≠ "" →
      login_adapost chk db sess email password =
        (ShelterLoginOutcome.invalidCredential, sess)) ∧
    (password = "" →
      login_adapost chk db sess email password =
        (ShelterLoginOutcome.validationError, sess)) ∧
    (login_adapost chk db sess email password).2 = sess := by
  refine ⟨?_, ?_, ?_⟩
  · intro hpw hem
    simp [login_adapost, hem, hpw, hfind, hhash]
  · intro hpw
    subst hpw
    simp [login_adapost]
  · by_cases hpw : password = ""
    · subst hpw
      simp [login_adapost]
    · by_cases hem : strLower (strStrip email) = ""
      · simp [login_adapost, hem]
      · simp [login_adapost, hem, hpw, hfind, hhash]

/-- Witness for the amended C10 at a concrete input (a checker that would
accept anything, to show it is never consulted). -/
theorem c10_amended_witness :
    (("secret" : String) ≠ "" → strLower (strStrip "s@x.ro") ≠ "" →
      login_adapost (fun _ _ => true) dbC10 emptySession "s@x.ro" "secret" =
        (ShelterLoginOutcome.invalidCredential, emptySession)) ∧
    (("secret" : String) = "" →
      login_adapost (fun _ _ => true) dbC10 emptySession "s@x.ro" "secret" =
        (ShelterLoginOutcome.validationError, emptySession)) ∧
    (login_adapost (fun _ _ => true) dbC10 emptySession "s@x.ro" "secret").2 =
      emptySession :=
  c10_amended_empty_hash_login (fun _ _ => true) dbC10 emptySession "s@x.ro" "secret"
    ({ sampleShelter 1 "s@x.ro" 0 with password_hash := "" }) (by decide) (by decide)

end PetRescue
